import Mathlib

/-!
Verification of the heuristic document-analysis core (`ai_engine.py`,
`document_loader.py`) of the AI Document Explainer repository.

Python strings are embedded as `List Char`; Python string primitives
(`str.lower`, `str.strip`, `str.split`, `str.isupper`, the `in` substring
test, `str.endswith`, `str.join`) are embedded as executable functions on
`List Char`, faithful to Python semantics on the ASCII-plus-BMP texts the
program handles. External collaborators (the translation service, the
speech synthesiser, the filesystem readers) are passed in as oracle
functions returning `Except Unit _`, where `Except.error ()` models the
collaborator raising an exception. A Python function that can itself raise
is embedded with an `Option`/`Except` result (`none` / `Except.error`
modelling the uncaught exception); a function that catches every
collaborator exception is embedded with a plain total result type.
-/

/-- Python strings, embedded as lists of characters. -/
abbrev Str := List Char

/-- The ASCII whitespace characters Python's `str.strip`/`str.split`
recognise (space, tab, newline, carriage return, vertical tab, form feed). -/
def pyIsSpace (c : Char) : Bool :=
  c = ' ' || c = '\t' || c = '\n' || c = '\r' || c = '\x0b' || c = '\x0c'

/-- Python `str.lower` (ASCII letters). -/
def pyLower (s : Str) : Str := s.map Char.toLower

/-- Python `str.strip()`: drop leading and trailing whitespace. -/
def pyStrip (s : Str) : Str :=
  ((s.dropWhile pyIsSpace).reverse.dropWhile pyIsSpace).reverse

/-- Split a string at every character satisfying `p`, keeping empty pieces:
the common core of Python `str.split(sep)` and `str.split()`. The result is
always non-empty. -/
def splitOnPred (p : Char → Bool) : Str → List Str
  | [] => [[]]
  | c :: rest =>
    match splitOnPred p rest with
    | [] => [[c]]
    | h :: t => if p c then [] :: h :: t else (c :: h) :: t

/-- Python `str.split(sep)` for a one-character separator: splits at every
occurrence, keeping empty pieces. -/
def splitOnChar (sep : Char) (s : Str) : List Str :=
  splitOnPred (fun c => c = sep) s

/-- Python `str.split()` (no argument): split on whitespace runs and drop
empty pieces, so the empty and all-whitespace strings yield `[]`. -/
def pySplit (s : Str) : List Str :=
  (splitOnPred pyIsSpace s).filter (fun x => !x.isEmpty)

/-- Python's `needle in haystack` substring test. -/
def containsSub (n : Str) : Str → Bool
  | [] => n.isEmpty
  | c :: rest => n.isPrefixOf (c :: rest) || containsSub n rest

/-- Python `str.isupper()`: at least one cased character and no lowercase
character (ASCII letters are the cased characters here). -/
def pyIsUpper (s : Str) : Bool :=
  s.any Char.isAlpha && s.all (fun c => !c.isLower)

/-- Python `sep.join(xs)`. -/
def joinSep (sep : Str) : List Str → Str
  | [] => []
  | [x] => x
  | x :: y :: rest => x ++ sep ++ joinSep sep (y :: rest)

/-! ## Embedding of `ai_engine.py` and `document_loader.py` -/

/-- `to_telugu`: calls the translation collaborator and returns the original
text when the collaborator raises. Total: no exception escapes. -/
def to_telugu (tr : Str → Except Unit Str) (text : Str) : Str :=
  match tr text with
  | .ok t => t
  | .error _ => text

/-- `speak_telugu`: asks the synthesis collaborator to save
`telugu_audio.mp3`; returns the filename on success and `none` when the
collaborator raises. Total: no exception escapes. -/
def speak_telugu (tts : Str → Except Unit Unit) (text : Str) : Option Str :=
  match tts text with
  | .ok _ => some "telugu_audio.mp3".data
  | .error _ => none

/-- `speak_english`: asks the synthesis collaborator to save
`english_audio.mp3` with no `try`/`except`, so a collaborator exception
propagates to the caller (`Except.error`). -/
def speak_english (tts : Str → Except Unit Unit) (text : Str) : Except Unit Str :=
  match tts text with
  | .ok _ => .ok "english_audio.mp3".data
  | .error e => .error e

/-- `summarize_doc`: on empty input the fixed placeholder triple; otherwise
strip each line of the first chunk and collect the stripped lines longer
than 5 characters that are upper-case as topics; build the summary from the
first 6 topics, or, when there are none, from the first 5 raw lines longer
than 40 characters; then translate and synthesise. -/
def summarize_doc (tr : Str → Except Unit Str) (tts : Str → Except Unit Unit) :
    List Str → Str × Str × Option Str
  | [] => ("No content to summarize.".data, [], none)
  | text :: _ =>
    let lines := splitOnChar '\n' text
    let topics := (lines.map pyStrip).filter (fun l => decide (5 < l.length) && pyIsUpper l)
    let summary :=
      if topics.isEmpty then
        "This document contains key formulas and concepts related to: ".data
          ++ joinSep ", ".data ((lines.filter (fun l => decide (40 < l.length))).take 5)
      else
        "This document covers important topics in Electromagnetics such as: ".data
          ++ joinSep ", ".data (topics.take 6)
    let telugu_summary := to_telugu tr summary
    let audio_file := speak_telugu tts telugu_summary
    (summary, telugu_summary, audio_file)

/-- `extract_key_points`: on empty input the fixed placeholder triple;
otherwise split the first chunk on periods, keep the stripped fragments
longer than 40 characters, bullet the first 5, then translate and
synthesise. -/
def extract_key_points (tr : Str → Except Unit Str) (tts : Str → Except Unit Unit) :
    List Str → Str × Str × Option Str
  | [] => ("No content to extract key points from.".data, [], none)
  | text :: _ =>
    let lines := splitOnChar '.' text
    let points := (lines.map pyStrip).filter (fun l => decide (40 < l.length))
    let key_points := "\n• ".data ++ joinSep "\n• ".data (points.take 5)
    let telugu := to_telugu tr key_points
    let audio_file := speak_telugu tts telugu
    (key_points, telugu, audio_file)

/-- `find_best_chunk`: the first chunk containing the lowered question as a
substring of its lowered text; otherwise the first chunk, or the empty
string when there is none. -/
def find_best_chunk (question : Str) (chunks : List Str) : Str :=
  match chunks.find? (fun c => containsSub (pyLower question) (pyLower c)) with
  | some c => c
  | none => chunks.headD []

/-- The fixed fallback answer of `answer_question`. -/
def noMatchMsg : Str :=
  "The document discusses this topic, but no exact sentence match was found.".data

/-- The `for s in sentences` loop body of `answer_question`. In each
iteration Python evaluates `question.lower().split()[0]`, which raises
`IndexError` (modelled as `none`) when the question has no word. -/
def answerLoop (question : Str) : List Str → Option Str
  | [] => some noMatchMsg
  | s :: rest =>
    match (pySplit (pyLower question)).head? with
    | none => none
    | some w =>
      if containsSub w (pyLower s) then some (pyStrip s) else answerLoop question rest

/-- `answer_question`: split the best chunk on periods and run the sentence
loop. `none` models the uncaught `IndexError` on a wordless question. -/
def answer_question (question : Str) (chunks : List Str) : Option Str :=
  answerLoop question (splitOnChar '.' (find_best_chunk question chunks))

/-- `load_document`: dispatch on the path suffix; `.txt` and `.pdf` delegate
to the filesystem/decoder collaborators (whose exceptions propagate), any
other path returns the sentinel string. -/
def load_document (readTxt readPdf : Str → Except Unit Str) (path : Str) :
    Except Unit Str :=
  if ".txt".data.isSuffixOf path then readTxt path
  else if ".pdf".data.isSuffixOf path then readPdf path
  else .ok "Unsupported file format".data

/-! ## Spec-side restatements of the claims -/

/-- The answer prescribed by claim C1, following the claim's words: select
the first chunk containing the full question case-insensitively (falling
back to the first chunk, or the empty string), split it on periods, return
the trimmed first sentence whose lowercase form contains the lowercase
first word of the question, else the fixed message. (The claim presupposes
a first word; when there is none this definition uses the empty word.) -/
def claimC1Answer (question : Str) (chunks : List Str) : Str :=
  let context :=
    match chunks.find? (fun c => containsSub (pyLower question) (pyLower c)) with
    | some c => c
    | none => chunks.headD []
  let firstWord := (pySplit (pyLower question)).headD []
  match (splitOnChar '.' context).find? (fun s => containsSub firstWord (pyLower s)) with
  | some s => pyStrip s
  | none => noMatchMsg

/-- The summary prescribed by claim C2 read literally: a line is a topic
heading when the line itself (untrimmed) is longer than 5 characters and
fully upper-case, and headings appear verbatim. -/
def claimC2Summary (text : Str) : Str :=
  let lines := splitOnChar '\n' text
  let topics := lines.filter (fun l => decide (5 < l.length) && pyIsUpper l)
  if topics.isEmpty then
    "This document contains key formulas and concepts related to: ".data
      ++ joinSep ", ".data ((lines.filter (fun l => decide (40 < l.length))).take 5)
  else
    "This document covers important topics in Electromagnetics such as: ".data
      ++ joinSep ", ".data (topics.take 6)

/-- The topic headings of the amended claim C2: lines whose trimmed form is
longer than 5 characters and fully upper-case; the heading is the trimmed
form. -/
def amendedC2Topics (text : Str) : List Str :=
  ((splitOnChar '\n' text).filter
    (fun l => decide (5 < (pyStrip l).length) && pyIsUpper (pyStrip l))).map pyStrip

/-- The summary prescribed by the amended claim C2, built from
`amendedC2Topics`; the important-lines branch is unchanged from the
claim. -/
def amendedC2Summary (text : Str) : Str :=
  let lines := splitOnChar '\n' text
  let topics := amendedC2Topics text
  if topics.isEmpty then
    "This document contains key formulas and concepts related to: ".data
      ++ joinSep ", ".data ((lines.filter (fun l => decide (40 < l.length))).take 5)
  else
    "This document covers important topics in Electromagnetics such as: ".data
      ++ joinSep ", ".data (topics.take 6)

/-- The key-points text prescribed by claim C3: split the first chunk on
periods, keep the fragments whose trimmed length exceeds 40 characters,
take the first 5 trimmed fragments, each prefixed with the bullet marker
and newline-joined. -/
def claimC3KeyPoints (text : Str) : Str :=
  "\n• ".data ++ joinSep "\n• ".data
    ((((splitOnChar '.' text).filter
        (fun f => decide (40 < (pyStrip f).length))).map pyStrip).take 5)

/-- The answer prescribed by claim C4 as stated: when some chunk contains
the substring "induction" (any case), take the first such chunk and return
the trimmed first sentence of it containing "what", else the fixed
message; `none` when the claim's premise fails. -/
def claimC4Answer (chunks : List Str) : Option Str :=
  match chunks.find? (fun c => containsSub "induction".data (pyLower c)) with
  | none => none
  | some c =>
    some (match (splitOnChar '.' c).find? (fun s => containsSub "what".data (pyLower s)) with
          | some s => pyStrip s
          | none => noMatchMsg)

/-- The answer prescribed by the amended claim C4: the selected chunk is
the first one containing the full question text "what is induction?"
case-insensitively. -/
def amendedC4Answer (chunks : List Str) : Option Str :=
  match chunks.find? (fun c => containsSub "what is induction?".data (pyLower c)) with
  | none => none
  | some c =>
    some (match (splitOnChar '.' c).find? (fun s => containsSub "what".data (pyLower s)) with
          | some s => pyStrip s
          | none => noMatchMsg)

/-- The question of claim C4. -/
def q4 : Str := "What is induction?".data

/-- Counterexample input for claim C2: the first line is 6 characters long
and upper-case per Python `isupper`, but its trimmed form has only 5
characters, so the code does not treat it as a heading. -/
def exC2 : Str := "ABCDE \nThe quick brown fox jumps over the lazy dog repeatedly today".data

/-- Witness input for the amended claim C2. -/
def exC2W : Str := "ELECTROMAGNETIC INDUCTION\nshort".data

/-- The concrete input of claim C3's example. -/
def exC3 : Str :=
  "This is a short sentence. This is a considerably longer sentence that exceeds forty characters easily.".data

/-- Counterexample chunks for claim C4: the second chunk contains
"induction", but neither contains the full question text, so the code
falls back to the first chunk. -/
def chunksC4 : List Str :=
  ["what a day. hello".data, "induction is what we study. x".data]

/-- Witness chunks for the amended claim C4: the second chunk contains the
full question text case-insensitively. -/
def chunksC4W : List Str :=
  ["xx".data, "so what is induction? it is. neat".data]

/-! ## Helper lemmas -/

/-- Filtering after mapping equals mapping after filtering on the composed
predicate. -/
theorem map_filter_comm {α β : Type} (f : α → β) (p : β → Bool) (l : List α) :
    (l.map f).filter p = (l.filter (fun a => p (f a))).map f := by
  induction l with
  | nil => rfl
  | cons a t ih =>
    simp only [List.map_cons, List.filter_cons]
    cases h : p (f a) <;> simp [h, ih]

/-- Every member of a joined list occurs verbatim in the join. -/
theorem joinSep_split (sep : Str) :
    ∀ (l : List Str) (x : Str), x ∈ l → ∃ p q, joinSep sep l = p ++ x ++ q
  | [], x, hx => absurd hx (List.not_mem_nil x)
  | [y], x, hx => by
    simp only [List.mem_singleton] at hx
    exact ⟨[], [], by simp [joinSep, hx]⟩
  | y :: z :: rest, x, hx => by
    rcases List.mem_cons.mp hx with h | h
    · exact ⟨[], sep ++ joinSep sep (z :: rest), by simp [joinSep, h, List.append_assoc]⟩
    · obtain ⟨p, q, hpq⟩ := joinSep_split sep (z :: rest) x h
      exact ⟨y ++ sep ++ p, q, by simp [joinSep, hpq, List.append_assoc]⟩

/-- When the question has a first word `w`, the sentence loop returns the
trimmed first sentence containing `w`, or the fixed message. -/
theorem answerLoop_eq_of_words (question w : Str) (ws : List Str)
    (hw : pySplit (pyLower question) = w :: ws) :
    ∀ l : List Str, answerLoop question l =
      some (match l.find? (fun s => containsSub w (pyLower s)) with
            | some s => pyStrip s
            | none => noMatchMsg)
  | [] => by simp [answerLoop, List.find?]
  | s :: rest => by
    have ih := answerLoop_eq_of_words question w ws hw rest
    simp only [answerLoop, hw, List.head?, List.find?]
    cases h : containsSub w (pyLower s)
    · simpa [h] using ih
    · simp [h]

/-! ## Claims -/

/-- Claim C1, counterexample: on the empty question the code evaluates
`question.lower().split()[0]` and raises IndexError (modelled by `none`)
instead of returning the string the claim prescribes. -/
theorem answer_question_c1_counterexample :
    answer_question [] ["hello".data] = none ∧
    claimC1Answer [] ["hello".data] = "hello".data := by decide

/-- Claim C1 (amended: the question has at least one whitespace-separated
word): `answer_question` selects the first chunk containing the full
question case-insensitively (falling back to the first chunk, or the empty
string), splits it on periods, and returns the trimmed first sentence
whose lowercase form contains the lowercase first word of the question, or
the fixed no-match message. -/
theorem answer_question_c1_amended (question : Str) (chunks : List Str)
    (h : pySplit (pyLower question) ≠ []) :
    answer_question question chunks = some (claimC1Answer question chunks) := by
  cases hw : pySplit (pyLower question) with
  | nil => exact absurd hw h
  | cons w ws =>
    rw [answer_question, answerLoop_eq_of_words question w ws hw]
    simp only [claimC1Answer, find_best_chunk, hw, List.headD]

/-- Witness for the amended claim C1 at a concrete question and chunk. -/
theorem answer_question_c1_witness :
    answer_question "What is".data ["It is what it is. yes".data] =
      some (claimC1Answer "What is".data ["It is what it is. yes".data]) :=
  answer_question_c1_amended _ _ (by decide)

/-- Claim C2, counterexample: on a first chunk whose first line is
"ABCDE " (6 characters, upper-case per Python, trimmed length 5), the
claim read literally prescribes the topics branch with heading "ABCDE ",
but the code strips the line first, finds no topic, and takes the
important-lines branch. -/
theorem summarize_doc_c2_counterexample :
    claimC2Summary exC2 =
      "This document covers important topics in Electromagnetics such as: ABCDE ".data ∧
    (summarize_doc (fun _ => .error ()) (fun _ => .error ()) [exC2]).1 =
      "This document contains key formulas and concepts related to: The quick brown fox jumps over the lazy dog repeatedly today".data := by
  decide

/-- Claim C2 (amended: a line is a topic heading when its trimmed form is
longer than 5 characters and fully upper-case, and the heading is that
trimmed form): on a non-empty chunk sequence the English summary of
`summarize_doc` is the fixed prefix followed by the first 6 headings
comma-joined when a heading exists (each heading occurring verbatim in the
summary), and otherwise the other fixed prefix followed by the first 5
lines longer than 40 characters comma-joined. -/
theorem summarize_doc_c2_amended (tr : Str → Except Unit Str)
    (tts : Str → Except Unit Unit) (c : Str) (cs : List Str) :
    (summarize_doc tr tts (c :: cs)).1 = amendedC2Summary c ∧
    ∀ t ∈ (amendedC2Topics c).take 6,
      ∃ p q, (summarize_doc tr tts (c :: cs)).1 = p ++ t ++ q := by
  have htop : ((splitOnChar '\n' c).map pyStrip).filter
      (fun l => decide (5 < l.length) && pyIsUpper l) = amendedC2Topics c :=
    map_filter_comm _ _ _
  constructor
  · simp only [summarize_doc, amendedC2Summary, htop]
  · intro t ht
    obtain ⟨p, q, hpq⟩ := joinSep_split ", ".data _ t ht
    have hne : (amendedC2Topics c).isEmpty = false := by
      cases hl : amendedC2Topics c with
      | nil => rw [hl] at ht; simp at ht
      | cons a l => simp [List.isEmpty]
    refine ⟨"This document covers important topics in Electromagnetics such as: ".data ++ p,
      q, ?_⟩
    simp only [summarize_doc, htop, hne, Bool.false_eq_true, if_false, hpq,
      List.append_assoc]

/-- Witness for the amended claim C2 on a chunk with one heading line. -/
theorem summarize_doc_c2_witness :
    (summarize_doc (fun _ => .error ()) (fun _ => .error ()) [exC2W]).1 =
      amendedC2Summary exC2W ∧
    ∃ p q, (summarize_doc (fun _ => .error ()) (fun _ => .error ()) [exC2W]).1 =
      p ++ "ELECTROMAGNETIC INDUCTION".data ++ q :=
  ⟨(summarize_doc_c2_amended _ _ _ _).1,
   (summarize_doc_c2_amended _ _ _ _).2 _ (by decide)⟩

/-- Claim C3: on a non-empty chunk sequence `extract_key_points` splits
the first chunk on periods, keeps the fragments whose trimmed length
exceeds 40 characters, takes the first 5 (trimmed), prefixes each with the
bullet marker and newline-joins them; on the claim's concrete example the
result is a bulleted list containing only the second sentence. -/
theorem extract_key_points_c3 :
    (∀ (tr : Str → Except Unit Str) (tts : Str → Except Unit Unit) (c : Str)
      (cs : List Str), (extract_key_points tr tts (c :: cs)).1 = claimC3KeyPoints c) ∧
    (extract_key_points (fun _ => .error ()) (fun _ => .error ()) [exC3]).1 =
      "\n• ".data
        ++ "This is a considerably longer sentence that exceeds forty characters easily".data := by
  constructor
  · intro tr tts c cs
    simp only [extract_key_points, claimC3KeyPoints]
    rw [map_filter_comm]
  · decide

/-- Witness for claim C3 at concrete collaborators and chunk. -/
theorem extract_key_points_c3_witness :
    (extract_key_points (fun _ => .error ()) (fun _ => .ok ()) ["abc".data]).1 =
      claimC3KeyPoints "abc".data :=
  extract_key_points_c3.1 _ _ _ _

/-- Claim C4, counterexample: the second chunk of `chunksC4` contains
"induction", so the claim prescribes answering from it with "induction is
what we study"; but the code selects chunks by the full question text,
finds none, falls back to the first chunk, and answers "what a day". -/
theorem answer_question_c4_counterexample :
    chunksC4.find? (fun c => containsSub "induction".data (pyLower c)) =
      some "induction is what we study. x".data ∧
    claimC4Answer chunksC4 = some "induction is what we study".data ∧
    answer_question q4 chunksC4 = some "what a day".data := by decide

/-- Claim C4 (amended: the premise is that some chunk contains the full
question text "what is induction?" case-insensitively): `answer_question`
on "What is induction?" selects the first such chunk and returns the
trimmed first sentence of it containing "what", or the fixed fallback
message. -/
theorem answer_question_c4_amended (chunks : List Str)
    (h : (amendedC4Answer chunks).isSome = true) :
    answer_question q4 chunks = amendedC4Answer chunks := by
  have hq : pyLower q4 = "what is induction?".data := by decide
  have hw : pySplit (pyLower q4) = ["what".data, "is".data, "induction?".data] := by decide
  cases hfind : chunks.find? (fun c => containsSub "what is induction?".data (pyLower c)) with
  | none =>
    rw [amendedC4Answer, hfind] at h
    simp at h
  | some c =>
    rw [answer_question, answerLoop_eq_of_words q4 "what".data _ hw, find_best_chunk]
    simp only [hq]
    rw [hfind, amendedC4Answer, hfind]

/-- Witness for the amended claim C4 at concrete chunks. -/
theorem answer_question_c4_witness :
    answer_question q4 chunksC4W = amendedC4Answer chunksC4W :=
  answer_question_c4_amended _ (by decide)

/-- Claim C5, failing inputs: on a whitespace-only or empty question (with
non-empty chunks) the code evaluates `question.lower().split()[0]` on an
empty word list and raises IndexError (modelled by `none`) instead of
returning a string. -/
theorem answer_question_c5_raises_on_wordless :
    answer_question "   ".data ["hi there. ok".data] = none ∧
    answer_question [] ["hi there. ok".data] = none := by decide

/-- Claim C6, failing behaviour: when the synthesis collaborator raises,
`speak_telugu` catches and returns `none`, but `speak_english` has no
handler and the exception propagates (`Except.error`). -/
theorem speak_english_c6_propagates :
    speak_english (fun _ => .error ()) "hello".data = .error () ∧
    speak_telugu (fun _ => .error ()) "hello".data = none :=
  ⟨rfl, rfl⟩

/-- Claim C7: when the translation collaborator raises on the text passed
to it, `to_telugu` returns its input unchanged, so the localized field of
`summarize_doc`'s and `extract_key_points`' result triple equals the
untranslated English text; no exception reaches the caller (the embedded
results are total). -/
theorem translation_failure_c7 :
    (∀ (tr : Str → Except Unit Str) (t : Str), tr t = .error () → to_telugu tr t = t) ∧
    (∀ (tr : Str → Except Unit Str) (tts : Str → Except Unit Unit) (c : Str)
      (cs : List Str), tr ((summarize_doc tr tts (c :: cs)).1) = .error () →
      (summarize_doc tr tts (c :: cs)).2.1 = (summarize_doc tr tts (c :: cs)).1) ∧
    (∀ (tr : Str → Except Unit Str) (tts : Str → Except Unit Unit) (c : Str)
      (cs : List Str), tr ((extract_key_points tr tts (c :: cs)).1) = .error () →
      (extract_key_points tr tts (c :: cs)).2.1 = (extract_key_points tr tts (c :: cs)).1) := by
  refine ⟨fun tr t h => by simp only [to_telugu, h], ?_, ?_⟩
  · intro tr tts c cs h
    have hs : (summarize_doc tr tts (c :: cs)).2.1 =
        to_telugu tr ((summarize_doc tr tts (c :: cs)).1) := rfl
    rw [hs]
    simp only [to_telugu, h]
  · intro tr tts c cs h
    have hs : (extract_key_points tr tts (c :: cs)).2.1 =
        to_telugu tr ((extract_key_points tr tts (c :: cs)).1) := rfl
    rw [hs]
    simp only [to_telugu, h]

/-- Witness for claim C7 with an always-failing translator. -/
theorem translation_failure_c7_witness :
    to_telugu (fun _ => .error ()) "hello".data = "hello".data ∧
    (summarize_doc (fun _ => .error ()) (fun _ => .ok ()) ["hello".data]).2.1 =
      (summarize_doc (fun _ => .error ()) (fun _ => .ok ()) ["hello".data]).1 ∧
    (extract_key_points (fun _ => .error ()) (fun _ => .ok ()) ["hello".data]).2.1 =
      (extract_key_points (fun _ => .error ()) (fun _ => .ok ()) ["hello".data]).1 :=
  ⟨translation_failure_c7.1 _ _ rfl,
   translation_failure_c7.2.1 _ _ _ _ rfl,
   translation_failure_c7.2.2 _ _ _ _ rfl⟩

/-- Claim C8: on the empty chunk sequence `summarize_doc` returns exactly
the placeholder triple and `extract_key_points` likewise, with empty
localized text and no audio, for every collaborator pair (so no
translation or synthesis call influences the result). -/
theorem empty_chunks_c8 (tr : Str → Except Unit Str) (tts : Str → Except Unit Unit) :
    summarize_doc tr tts [] = ("No content to summarize.".data, [], none) ∧
    extract_key_points tr tts [] = ("No content to extract key points from.".data, [], none) :=
  ⟨rfl, rfl⟩

/-- Witness for claim C8 at concrete collaborators. -/
theorem empty_chunks_c8_witness :
    summarize_doc (fun _ => .error ()) (fun _ => .error ()) [] =
      ("No content to summarize.".data, [], none) :=
  (empty_chunks_c8 _ _).1

/-- Claim C9: for every path ending in neither ".txt" nor ".pdf",
`load_document` returns the sentinel string "Unsupported file format"
without raising, for every filesystem collaborator pair. -/
theorem load_document_c9 (readTxt readPdf : Str → Except Unit Str) (path : Str)
    (h1 : ".txt".data.isSuffixOf path = false)
    (h2 : ".pdf".data.isSuffixOf path = false) :
    load_document readTxt readPdf path = .ok "Unsupported file format".data := by
  simp [load_document, h1, h2]

/-- Witness for claim C9 at a ".docx" path. -/
theorem load_document_c9_witness :
    load_document (fun _ => .ok []) (fun _ => .ok []) "report.docx".data =
      .ok "Unsupported file format".data :=
  load_document_c9 _ _ _ (by decide) (by decide)

/-- Claim C10: on every non-empty chunk sequence the English key-points
text begins with a newline and bullet marker, is never the empty-content
placeholder, and when no period-separated fragment of the first chunk has
trimmed length over 40 it is exactly the lone bullet marker. -/
theorem key_points_bullet_c10 (tr : Str → Except Unit Str)
    (tts : Str → Except Unit Unit) (c : Str) (cs : List Str) :
    (∃ rest, (extract_key_points tr tts (c :: cs)).1 = "\n• ".data ++ rest) ∧
    (extract_key_points tr tts (c :: cs)).1 ≠
      "No content to extract key points from.".data ∧
    (((splitOnChar '.' c).map pyStrip).filter (fun l => decide (40 < l.length)) = [] →
      (extract_key_points tr tts (c :: cs)).1 = "\n• ".data) := by
  have hfst : (extract_key_points tr tts (c :: cs)).1 =
      "\n• ".data ++ joinSep "\n• ".data
        ((((splitOnChar '.' c).map pyStrip).filter
          (fun l => decide (40 < l.length))).take 5) := rfl
  refine ⟨⟨_, hfst⟩, ?_, ?_⟩
  · rw [hfst]
    intro hEq
    have h2 := congrArg List.head? hEq
    have h0 : (("\n• ".data ++ joinSep "\n• ".data
        ((((splitOnChar '.' c).map pyStrip).filter
          (fun l => decide (40 < l.length))).take 5)) : Str).head? = some '\n' := rfl
    rw [h0] at h2
    exact absurd h2 (by decide)
  · intro hpts
    rw [hfst, hpts]
    rfl

/-- Witness for claim C10 on a chunk with only short fragments. -/
theorem key_points_bullet_c10_witness :
    (extract_key_points (fun _ => .error ()) (fun _ => .error ())
      ["short. tiny".data]).1 = "\n• ".data :=
  (key_points_bullet_c10 _ _ _ _).2.2 (by decide)
